import Mathlib

/-!
Shallow embedding of `telepresence-compose.py`: the field-translation and
command-assembly engine that turns one service entry of a docker-compose
manifest into a `telepresence ... --docker-run ...` command line.

Python strings are modelled as `String`, Python lists as `List`, dynamically
typed manifest values as small inductive types (`PyVal`, `PortEntry`,
`VolumeEntry`), exceptions as `Except String`, and the printed output of
`main` as the `.ok` payload of an `Except String String`.
-/

set_option autoImplicit false

namespace TelepresenceCompose

/-- Boolean test that `pre` is a prefix of `l` (models Python `str.startswith`
at the character-list level). -/
def listStartsWith : List Char → List Char → Bool
  | [], _ => true
  | _ :: _, [] => false
  | c :: cs, d :: ds => c == d && listStartsWith cs ds

/-- Python `s.startswith(pre)`. -/
def strStartsWith (s pre : String) : Bool :=
  listStartsWith pre.data s.data

/-- Split a character list on a separator character, keeping empty segments
(models Python `str.split(sep)` for a one-character separator; also used for
the `/`-splitting done by `os.path.normpath`). -/
def splitChar (sep : Char) : List Char → List (List Char)
  | [] => [[]]
  | c :: rest =>
    if c == sep then [] :: splitChar sep rest
    else
      match splitChar sep rest with
      | [] => [[c]]
      | seg :: segs => (c :: seg) :: segs

/-- Python `sep.join(xs)`. -/
def joinStr (sep : String) : List String → String
  | [] => ""
  | [x] => x
  | x :: xs => x ++ sep ++ joinStr sep xs

/-- Join path segments with `/` at the character-list level. -/
def joinSlash : List (List Char) → List Char
  | [] => []
  | [x] => x
  | x :: xs => x ++ '/' :: joinSlash xs

/-- Python `s.split(' ')` returning strings. -/
def pySplit (s : String) : List String :=
  (splitChar ' ' s.data).map String.mk

/-- One step of the `os.path.normpath` component scan: skip empty and `.`
components, push ordinary components, and let `..` pop the previous component
(dropped at the root of an absolute path, kept for a relative path with no
component to pop).  The stack is kept in reverse order. -/
def normStep (isAbs : Bool) (stack : List (List Char)) (seg : List Char) : List (List Char) :=
  if seg = [] ∨ seg = ['.'] then stack
  else if seg ≠ ['.', '.'] then seg :: stack
  else
    match stack with
    | [] => if isAbs then [] else [seg]
    | top :: rest => if top = ['.', '.'] then seg :: stack else rest

/-- The component stack produced by `os.path.normpath`, in reverse order. -/
def normSegsRev (isAbs : Bool) (segs : List (List Char)) : List (List Char) :=
  segs.foldl (normStep isAbs) []

/-- Python `os.path.normpath`: lexical cleanup of `.`/`..`/duplicate slashes
(without the POSIX special case for exactly two leading slashes, which no path
in this development exercises). -/
def normpath (p : String) : String :=
  let isAbs := strStartsWith p "/"
  let stack := (normSegsRev isAbs (splitChar '/' p.data)).reverse
  if isAbs then String.mk ('/' :: joinSlash stack)
  else if stack = [] then "."
  else String.mk (joinSlash stack)

/-- Python `os.path.dirname`: the text before the last `/`, with trailing
slashes stripped unless the result is all slashes. -/
def osDirname (p : String) : String :=
  let head := (p.data.reverse.dropWhile (fun c => !(c == '/'))).reverse
  if head.all (fun c => c == '/') then String.mk head
  else String.mk ((head.reverse.dropWhile (fun c => c == '/')).reverse)

/-- Joining two path components as `PosixPath(a, b)` does when `b` is relative
(pathlib's extra cleanup of `.` segments is subsumed by the `normpath` applied
afterwards everywhere this is used). -/
def posixJoin (a b : String) : String :=
  if a == "" then b else a ++ "/" ++ b

/-- The process environment the path functions depend on: the working
directory used by `PosixPath.absolute()` and the home directory used by
`PosixPath.expanduser()`. -/
structure HostEnv where
  cwd : String
  home : String

/-- `PosixPath.absolute()`: prepend the working directory to a relative path. -/
def pathAbsolute (cwd p : String) : String :=
  if strStartsWith p "/" then p else if p == "" then cwd else cwd ++ "/" ++ p

/-- `PosixPath.expanduser()` for the `~` and `~/...` forms (the `~otheruser`
form, which consults the system user database, is excluded by hypothesis in
the theorems that quantify over paths). -/
def expanduser (home p : String) : String :=
  if p == "~" then home
  else if strStartsWith p "~/" then home ++ String.mk (p.data.drop 1)
  else p

/-- A dynamically typed scalar manifest value as the Python code sees it. -/
inductive PyVal where
  | vstr (s : String)
  | vint (n : Int)
  | vbool (b : Bool)
  | vnone
deriving DecidableEq

/-- Python `str()` on a scalar manifest value. -/
def pyStr : PyVal → String
  | .vstr s => s
  | .vint n => toString n
  | .vbool b => if b then "True" else "False"
  | .vnone => "None"

/-- A `ports` entry: a plain string, a mapping, or any other shape
(for example a bare integer), which the source handles with the undefined
name `null` and therefore a `NameError`. -/
inductive PortEntry where
  | pstr (s : String)
  | pdict (pairs : List (String × PyVal))
  | pother
deriving DecidableEq

/-- A `volumes` entry: a plain bind-mount string, a mount mapping, or any
other shape. -/
inductive VolumeEntry where
  | vstr (s : String)
  | vdict (pairs : List (String × PyVal))
  | vother
deriving DecidableEq

/-- Python `dict` key lookup on an association list. -/
def dictGet : List (String × PyVal) → String → Option PyVal
  | [], _ => none
  | p :: rest, k => if p.1 == k then some p.2 else dictGet rest k

/-- `port_to_str` from the source: a string passes through, a mapping renders
as `PUBLISHED:TARGET/PROTOCOL`, and any other shape evaluates the undefined
name `null`, raising `NameError`. -/
def port_to_str : PortEntry → Except String String
  | .pstr s => .ok s
  | .pdict pairs =>
    match dictGet pairs "published" with
    | none => .error "KeyError: published"
    | some pub =>
      match dictGet pairs "target" with
      | none => .error "KeyError: target"
      | some tgt =>
        match dictGet pairs "protocol" with
        | none => .error "KeyError: protocol"
        | some proto =>
          match proto with
          | .vstr protoStr => .ok (pyStr pub ++ ":" ++ pyStr tgt ++ "/" ++ protoStr)
          | _ => .error "TypeError: can only concatenate str to str"
  | .pother => .error "NameError: name null is not defined"

/-- `volume_dict_pairs_to_str` from the source: `read_only` renders as
`readonly=<value>`, `source` goes through home expansion / manifest-relative
resolution / verbatim pass-through, and every other key renders as
`key=value`.  A non-string `source` value makes `val.startswith` raise. -/
def volume_dict_pairs_to_str (env : HostEnv) (composefile : String)
    (keyval : String × PyVal) : Except String String :=
  let key := keyval.1
  let val := keyval.2
  if key == "read_only" then .ok ("readonly=" ++ pyStr val)
  else if key == "source" then
    match val with
    | .vstr s =>
      if strStartsWith s "~" then
        .ok ("source=" ++ normpath (pathAbsolute env.cwd (expanduser env.home s)))
      else if strStartsWith s "/" == false then
        .ok ("source=" ++ normpath (pathAbsolute env.cwd (posixJoin (osDirname composefile) s)))
      else .ok ("source=" ++ s)
    | _ => .error "AttributeError: startswith needs a str"
  else .ok (key ++ "=" ++ pyStr val)

/-- Sequence a list of fallible conversions, stopping at the first error
(models Python `list(map(f, xs))` where `f` may raise). -/
def mapExcept {α β : Type} (f : α → Except String β) : List α → Except String (List β)
  | [] => .ok []
  | x :: xs =>
    match f x with
    | .error e => .error e
    | .ok y =>
      match mapExcept f xs with
      | .error e => .error e
      | .ok ys => .ok (y :: ys)

/-- `volume_to_str_lambda` from the source: a string becomes a `-v` token, a
mapping becomes a `--mount` token with comma-joined `key=value` parts in
declaration order, and any other shape evaluates the undefined name `null`. -/
def volume_to_str_lambda (env : HostEnv) (composefile : String) :
    VolumeEntry → Except String String
  | .vstr v => .ok ("-v " ++ v)
  | .vdict pairs =>
    match mapExcept (volume_dict_pairs_to_str env composefile) pairs with
    | .error e => .error e
    | .ok parts => .ok ("--mount " ++ joinStr "," parts)
  | .vother => .error "NameError: name null is not defined"

/-- `env_file_to_str_lambda` from the source: same path policy as a volume
`source`, rendered as a `--env-file <path>` token. -/
def env_file_to_str_lambda (env : HostEnv) (composefile : String) (env_file : String) : String :=
  if strStartsWith env_file "~" then
    "--env-file " ++ normpath (pathAbsolute env.cwd (expanduser env.home env_file))
  else if strStartsWith env_file "/" == false then
    "--env-file " ++ normpath (pathAbsolute env.cwd (posixJoin (osDirname composefile) env_file))
  else "--env-file " ++ env_file

/-- Whether a character is one of the recognized unit letters `[smhdw]`,
case-insensitively (the regular expression runs with `re.I`). -/
def isUnitChar (c : Char) : Bool :=
  let l := c.toLower
  l == 's' || l == 'm' || l == 'h' || l == 'd' || l == 'w'

/-- Numeric value of a decimal digit character. -/
def digitVal (c : Char) : Nat := c.toNat - '0'.toNat

/-- The segment scan performed by `re.finditer` with the pattern
`(?P<val>\d+)(?P<unit>[smhdw]?)` under `re.I`: maximal digit runs, each with
the following unit letter if there is one (lower-cased, `'s'` when absent,
exactly as `UNITS.get(..., 'seconds')` treats an empty unit group).
Characters outside any match are skipped. -/
def scanSegs : Option Nat → List Char → List (Nat × Char)
  | acc, [] =>
    match acc with
    | some v => [(v, 's')]
    | none => []
  | acc, c :: rest =>
    if c.isDigit then scanSegs (some (acc.getD 0 * 10 + digitVal c)) rest
    else
      match acc with
      | some v =>
        if isUnitChar c then (v, c.toLower) :: scanSegs none rest
        else (v, 's') :: scanSegs none rest
      | none => scanSegs none rest

/-- The keyword arguments handed to `timedelta(**{...})`: one optional value
per unit name.  Absent keys contribute nothing. -/
structure TDeltaArgs where
  seconds : Option Nat := none
  minutes : Option Nat := none
  hours : Option Nat := none
  days : Option Nat := none
  weeks : Option Nat := none
deriving DecidableEq

/-- Insertion of one scanned segment into the keyword dictionary: a later
segment with the same unit letter OVERWRITES the earlier one, because the
source builds a dict comprehension keyed by the unit name. -/
def setUnit (a : TDeltaArgs) (seg : Nat × Char) : TDeltaArgs :=
  if seg.2 = 'm' then { a with minutes := some seg.1 }
  else if seg.2 = 'h' then { a with hours := some seg.1 }
  else if seg.2 = 'd' then { a with days := some seg.1 }
  else if seg.2 = 'w' then { a with weeks := some seg.1 }
  else { a with seconds := some seg.1 }

/-- `timedelta(**args).total_seconds()`, truncated to an integer by `int()`
(exact here, since every unit multiple is a whole number of seconds). -/
def totalSeconds (a : TDeltaArgs) : Nat :=
  a.seconds.getD 0 + 60 * a.minutes.getD 0 + 3600 * a.hours.getD 0
    + 86400 * a.days.getD 0 + 604800 * a.weeks.getD 0

/-- `convert_to_seconds` from the source. -/
def convert_to_seconds (s : String) : Nat :=
  totalSeconds (List.foldl setUnit {} (scanSegs none s.data))

/-- Canonical unit letter of a scanned segment: the recognized letters map to
themselves and everything else (in particular a missing unit) means seconds. -/
def unitKey (c : Char) : Char :=
  if c = 'm' then 'm'
  else if c = 'h' then 'h'
  else if c = 'd' then 'd'
  else if c = 'w' then 'w'
  else 's'

/-- The value of the LAST scanned segment carrying unit `k`, if any. -/
def findLastVal (k : Char) : List (Nat × Char) → Option Nat
  | [] => none
  | seg :: rest =>
    match findLastVal k rest with
    | some v => some v
    | none => if unitKey seg.2 == k then some seg.1 else none

/-- Specification-level total: for each unit, only the last segment with that
unit contributes. -/
def lastOccSeconds (segs : List (Nat × Char)) : Nat :=
  (findLastVal 's' segs).getD 0 + 60 * (findLastVal 'm' segs).getD 0
    + 3600 * (findLastVal 'h' segs).getD 0 + 86400 * (findLastVal 'd' segs).getD 0
    + 604800 * (findLastVal 'w' segs).getD 0

/-- Projection of the `timedelta` keyword dictionary by unit letter, with the
same catch-all-to-seconds policy as `unitKey`. -/
def fieldOf (a : TDeltaArgs) (k : Char) : Option Nat :=
  if k = 'm' then a.minutes
  else if k = 'h' then a.hours
  else if k = 'd' then a.days
  else if k = 'w' then a.weeks
  else a.seconds

/-- The `entrypoint` field of a service: a string or a sequence of strings. -/
inductive EntrypointVal where
  | estr (s : String)
  | elist (xs : List String)
deriving DecidableEq

/-- The fields `main` extracts from the selected service entry, with the
`or []` / plain-`get` defaulting of the source applied.  `command` is read
(line 128 of the source) but never used afterwards. -/
structure ServiceSpec where
  entrypoint : Option EntrypointVal := none
  command : Option PyVal := none
  image : Option String := none
  container_name : Option String := none
  pid : Option String := none
  stop_grace_period : Option String := none
  stop_signal : Option String := none
  working_dir : Option String := none
  cap_add : List String := []
  cap_drop : List String := []
  devices : List String := []
  dns : List String := []
  dns_search : List String := []
  env_file : List String := []
  environment : List String := []
  expose : List String := []
  extra_hosts : List String := []
  labels : List String := []
  ports : List PortEntry := []
  volumes : List VolumeEntry := []
deriving DecidableEq

/-- The command-line arguments gathered by argparse. -/
structure Args where
  service : String
  context : String
  swap : Bool
  composefile : String

/-- A single-use Python iterator (such as an `itertools.chain`): consuming it
yields all remaining elements and leaves it exhausted. -/
structure PyIter where
  remaining : List String

/-- Consume the iterator: `list.extend(it)` takes everything and later
consumers get nothing. -/
def PyIter.consume (it : PyIter) : List String × PyIter :=
  (it.remaining, ⟨[]⟩)

/-- The `itertools.chain.from_iterable(zip(itertools.repeat(flag), xs))`
pattern: one `flag value` pair per element. -/
def flagPairs (flag : String) : List String → List String
  | [] => []
  | x :: xs => flag :: x :: flagPairs flag xs

/-- Membership test plus indexing on the `services` mapping. -/
def lookupService : List (String × ServiceSpec) → String → Option ServiceSpec
  | [], _ => none
  | entry :: rest, svc => if entry.1 == svc then some entry.2 else lookupService rest svc

/-- Python `str()` of a `dict_keys` view, as interpolated by `format`. -/
def pyKeysRepr (keys : List String) : String :=
  "dict_keys([" ++ joinStr ", " (keys.map (fun k => "\x27" ++ k ++ "\x27")) ++ "])"

/-- The `sys.exit` message for an unknown service name. -/
def serviceNotFoundMsg (svc : String) (keys : List String) : String :=
  "Service " ++ svc ++ " not found in " ++ pyKeysRepr keys

/-- Python truthiness of an optional string: `None` and `""` are falsy. -/
def truthyStr (o : Option String) : Bool :=
  !(o.getD "" == "")

/-- Normalization of the raw `entrypoint` value (source line 126): a sequence
is joined with single spaces, a string passes through. -/
def entryJoin : Option EntrypointVal → Option String
  | none => none
  | some (.estr s) => some s
  | some (.elist xs) => some (joinStr " " xs)

/-- Re-splitting of the joined entrypoint (source line 127): split on spaces
when truthy, empty token list otherwise. -/
def entrySplit : Option String → List String
  | none => []
  | some s => if s == "" then [] else pySplit s

/-- The `cmd` array built by `main`, as far as the `cmd.extend`/`append`
calls go; `svc_image` is appended as-is, so a missing image contributes a
`none` (Python `None`) token.  Errors model `sys.exit` and uncaught
exceptions raised before the array is complete. -/
def mainTokens (env : HostEnv) (args : Args) (services : List (String × ServiceSpec)) :
    Except String (List (Option String)) :=
  if args.context == "" then .error "context MUST be passed"
  else
    match lookupService services args.service with
    | none => .error (serviceNotFoundMsg args.service (services.map Prod.fst))
    | some spec =>
      let svc_entrypoint := entryJoin spec.entrypoint
      let svc_entrypoint_split := entrySplit svc_entrypoint
      let _svc_command := spec.command
      match mapExcept port_to_str spec.ports with
      | .error e => .error e
      | .ok svc_ports =>
        match mapExcept (volume_to_str_lambda env args.composefile) spec.volumes with
        | .error e => .error e
        | .ok volume_list =>
          let env_file_list := spec.env_file.map (env_file_to_str_lambda env args.composefile)
          let exposeIter : PyIter := ⟨flagPairs "--expose" spec.expose⟩
          let firstTake := exposeIter.consume
          let secondTake := firstTake.2.consume
          let cmd : List String :=
            ["telepresence", "--method", "container", "--context", args.context]
            ++ (if args.swap then ["--swap-deployment", args.service]
                else ["--new-deployment", "tele-" ++ args.service])
            ++ firstTake.1
            ++ ["--mount", "false", "--env-file", "telepresence-env-file.env.tmp",
                "--docker-run", "--rm", "-it"]
            ++ (if truthyStr spec.container_name then ["--name", spec.container_name.getD ""] else [])
            ++ (match svc_entrypoint_split with
                | [] => []
                | tok :: _ => ["--entrypoint", tok])
            ++ (if truthyStr spec.pid then ["--pid", spec.pid.getD ""] else [])
            ++ (if truthyStr spec.stop_grace_period then
                  ["--stop-timeout", toString (convert_to_seconds (spec.stop_grace_period.getD ""))]
                else [])
            ++ (if truthyStr spec.stop_signal then ["--stop-signal", spec.stop_signal.getD ""] else [])
            ++ (if truthyStr spec.working_dir then ["--workdir", spec.working_dir.getD ""] else [])
            ++ flagPairs "--cap-add" spec.cap_add
            ++ flagPairs "--cap-drop" spec.cap_drop
            ++ flagPairs "--devices" spec.devices
            ++ flagPairs "--dns" spec.dns
            ++ flagPairs "--dns-search" spec.dns_search
            ++ env_file_list
            ++ flagPairs "-e" spec.environment
            ++ secondTake.1
            ++ flagPairs "--add-host" spec.extra_hosts
            ++ flagPairs "-l" spec.labels
            ++ flagPairs "-p" svc_ports
            ++ volume_list
          .ok (cmd.map some ++ [spec.image] ++ (svc_entrypoint_split.drop 1).map some)

/-- Python `' '.join(cmd)`: raises `TypeError` when any element is `None`. -/
def pyJoinSpace (tokens : List (Option String)) : Except String String :=
  if tokens.all Option.isSome then .ok (joinStr " " (tokens.filterMap id))
  else .error "TypeError: sequence item: expected str instance, NoneType found"

/-- `main` from the source, up to its single `print`: the `.ok` payload is
the full printed line, and `.error` means the process died (via `sys.exit` or
an uncaught exception) before printing anything. -/
def main (env : HostEnv) (args : Args) (services : List (String × ServiceSpec)) :
    Except String String :=
  match mainTokens env args services with
  | .error e => .error e
  | .ok tokens =>
    match pyJoinSpace tokens with
    | .error e => .error e
    | .ok finalCmd => .ok ("Docker command:\n" ++ finalCmd)

/-- Whether a run printed a command (its `main` call returned normally). -/
def isOkRun (r : Except String String) : Bool :=
  match r with
  | .ok _ => true
  | .error _ => false

/-- A service spec with the (unused) `command` field cleared. -/
def eraseCommand (spec : ServiceSpec) : ServiceSpec :=
  { spec with command := none }

/-- Closed form of the assembled tokens that precede the entrypoint-override
flag: program name, fixed proxy flags, deployment-target flags, the expose
flags (emitted by the FIRST consumption of the expose iterator), fixed proxy
behavior flags and the conditional container-name flag. -/
def preEntryTokens (args : Args) (spec : ServiceSpec) : List String :=
  ["telepresence", "--method", "container", "--context", args.context]
  ++ (if args.swap then ["--swap-deployment", args.service]
      else ["--new-deployment", "tele-" ++ args.service])
  ++ flagPairs "--expose" spec.expose
  ++ ["--mount", "false", "--env-file", "telepresence-env-file.env.tmp",
      "--docker-run", "--rm", "-it"]
  ++ (if truthyStr spec.container_name then ["--name", spec.container_name.getD ""] else [])

/-- Closed form of the assembled tokens that follow the entrypoint-override
flag and precede the image: remaining conditional single-value flags, then
the repeated-value groups.  The expose group contributes NOTHING here: the
second `cmd.extend(expose_list)` of the source consumes an iterator already
exhausted by the first, so between the environment-variable group and the
extra-hosts group no `--expose` token appears. -/
def postEntryTokens (env : HostEnv) (args : Args) (spec : ServiceSpec)
    (svc_ports volume_list : List String) : List String :=
  (if truthyStr spec.pid then ["--pid", spec.pid.getD ""] else [])
  ++ (if truthyStr spec.stop_grace_period then
        ["--stop-timeout", toString (convert_to_seconds (spec.stop_grace_period.getD ""))]
      else [])
  ++ (if truthyStr spec.stop_signal then ["--stop-signal", spec.stop_signal.getD ""] else [])
  ++ (if truthyStr spec.working_dir then ["--workdir", spec.working_dir.getD ""] else [])
  ++ flagPairs "--cap-add" spec.cap_add
  ++ flagPairs "--cap-drop" spec.cap_drop
  ++ flagPairs "--devices" spec.devices
  ++ flagPairs "--dns" spec.dns
  ++ flagPairs "--dns-search" spec.dns_search
  ++ spec.env_file.map (env_file_to_str_lambda env args.composefile)
  ++ flagPairs "-e" spec.environment
  ++ flagPairs "--add-host" spec.extra_hosts
  ++ flagPairs "-l" spec.labels
  ++ flagPairs "-p" svc_ports
  ++ volume_list

/-- Closed form of the whole token array of a successful run, given the
already-rendered port and volume strings. -/
def assembledTokens (env : HostEnv) (args : Args) (spec : ServiceSpec)
    (svc_ports volume_list : List String) : List (Option String) :=
  let svc_entrypoint_split := entrySplit (entryJoin spec.entrypoint)
  ((preEntryTokens args spec
    ++ (match svc_entrypoint_split with
        | [] => []
        | tok :: _ => ["--entrypoint", tok])
    ++ postEntryTokens env args spec svc_ports volume_list).map some)
  ++ [spec.image] ++ (svc_entrypoint_split.drop 1).map some

/-- A path component that lexical normalization can emit: nonempty, not a
dot, not a dot-dot, and free of separators. -/
def cleanSeg (seg : List Char) : Prop :=
  seg ≠ [] ∧ seg ≠ ['.'] ∧ seg ≠ ['.', '.'] ∧ '/' ∉ seg

/-- The token array of a successful run, and the empty array of a failed
one. -/
def okTokens (r : Except String (List (Option String))) : List (Option String) :=
  match r with
  | .ok tokens => tokens
  | .error _ => []

/-- A concrete run whose service carries one string `ports` entry and no
`expose` entry, used to exhibit how `ports` is rendered. -/
def portsProbeResult : Except String (List (Option String)) :=
  mainTokens ⟨"/cwd", "/home/u"⟩ ⟨"web", "ctx", false, "/proj/dc.yml"⟩
    [("web", { image := some "img", ports := [PortEntry.pstr "8080:80"] })]

/-- A concrete run whose service carries an `expose` entry, an environment
variable and an extra host, used to exhibit where the `--expose` flags land. -/
def exposeProbeResult : Except String (List (Option String)) :=
  mainTokens ⟨"/cwd", "/home/u"⟩ ⟨"web", "ctx", false, "/proj/dc.yml"⟩
    [("web", { image := some "img", expose := ["1234"], environment := ["A=1"],
               extra_hosts := ["db:10.0.0.1"] })]

theorem strData_append (a b : String) : (a ++ b).data = a.data ++ b.data := by
  cases a
  cases b
  rfl

theorem splitChar_ne_nil (sep : Char) (l : List Char) : splitChar sep l ≠ [] := by
  induction l with
  | nil => simp [splitChar]
  | cons c rest ih =>
    unfold splitChar
    by_cases hc : (c == sep) = true
    · simp [hc]
    · simp only [hc, Bool.false_eq_true, if_false]
      cases h : splitChar sep rest <;> simp

/-- A successful run assembles exactly the closed-form token array: expose
flags early (from the first iterator consumption), `-p` pairs for ports in
the repeated group, and nothing for expose in the repeated group. -/
theorem mainTokens_eq_assembled (env : HostEnv) (args : Args)
    (services : List (String × ServiceSpec)) (spec : ServiceSpec)
    (svc_ports volume_list : List String)
    (hctx : (args.context == "") = false)
    (hlook : lookupService services args.service = some spec)
    (hports : mapExcept port_to_str spec.ports = Except.ok svc_ports)
    (hvols : mapExcept (volume_to_str_lambda env args.composefile) spec.volumes
      = Except.ok volume_list) :
    mainTokens env args services
      = Except.ok (assembledTokens env args spec svc_ports volume_list) := by
  simp only [mainTokens, hctx, hlook, hports, hvols, PyIter.consume,
    Bool.false_eq_true, if_false, assembledTokens, preEntryTokens, postEntryTokens,
    List.append_assoc, List.append_nil]

/-- C1: refuted.  A run whose service has the single `ports` entry
`"8080:80"` (and no `expose` entry) emits the publish pair `-p 8080:80` and
no `--expose` token at all, so `ports` entries are NOT rendered as
`--expose`. -/
theorem c1_ports_refuted :
    some "-p" ∈ okTokens portsProbeResult
    ∧ some "8080:80" ∈ okTokens portsProbeResult
    ∧ some "--expose" ∉ okTokens portsProbeResult := by
  decide

/-- C1 (amended): every successful run assembles the closed-form token
array, in which each rendered `ports` entry contributes a `-p value` publish
pair in the repeated-flag region, while `--expose` pairs are produced from
the `expose` field (once, before `--mount false`). -/
theorem c1_ports_rendered_as_publish_pairs (env : HostEnv) (args : Args)
    (services : List (String × ServiceSpec)) (spec : ServiceSpec)
    (svc_ports volume_list : List String)
    (hctx : (args.context == "") = false)
    (hlook : lookupService services args.service = some spec)
    (hports : mapExcept port_to_str spec.ports = Except.ok svc_ports)
    (hvols : mapExcept (volume_to_str_lambda env args.composefile) spec.volumes
      = Except.ok volume_list) :
    mainTokens env args services
      = Except.ok (assembledTokens env args spec svc_ports volume_list) :=
  mainTokens_eq_assembled env args services spec svc_ports volume_list hctx hlook hports hvols

/-- Witness for C1 (amended): a concrete run with a string port entry and a
mapping port entry. -/
theorem c1_ports_rendered_as_publish_pairs_witness :
    mainTokens ⟨"/cwd", "/home/u"⟩ ⟨"web", "ctx", false, "/proj/dc.yml"⟩
      [("web", { image := some "img",
                 ports := [PortEntry.pstr "8080:80",
                           PortEntry.pdict [("published", PyVal.vint 9090),
                                            ("target", PyVal.vint 90),
                                            ("protocol", PyVal.vstr "tcp")]] })]
      = Except.ok (assembledTokens ⟨"/cwd", "/home/u"⟩ ⟨"web", "ctx", false, "/proj/dc.yml"⟩
          { image := some "img",
            ports := [PortEntry.pstr "8080:80",
                      PortEntry.pdict [("published", PyVal.vint 9090),
                                       ("target", PyVal.vint 90),
                                       ("protocol", PyVal.vstr "tcp")]] }
          ["8080:80", "9090:90/tcp"] []) :=
  c1_ports_rendered_as_publish_pairs ⟨"/cwd", "/home/u"⟩ ⟨"web", "ctx", false, "/proj/dc.yml"⟩
    _ _ _ _ rfl rfl rfl rfl

/-- C6: the claimed group order holds except for the expose group, which is
empty: in this concrete run the `--expose 1234` pair appears once, early
(before `--mount false`), and between the `-e` group and the `--add-host`
group nothing is emitted, because the second `cmd.extend(expose_list)` of the
source consumes an already-exhausted iterator. -/
theorem c6_expose_group_exhausted :
    exposeProbeResult
      = Except.ok ((["telepresence", "--method", "container", "--context", "ctx",
          "--new-deployment", "tele-web", "--expose", "1234", "--mount", "false",
          "--env-file", "telepresence-env-file.env.tmp", "--docker-run", "--rm", "-it",
          "-e", "A=1", "--add-host", "db:10.0.0.1", "img"]).map some)
    ∧ (okTokens exposeProbeResult).count (some "--expose") = 1 := by
  constructor
  · rfl
  · decide

theorem pyJoinSpace_none_mid (xs : List String) (ys : List (Option String)) :
    pyJoinSpace (xs.map some ++ none :: ys)
      = Except.error "TypeError: sequence item: expected str instance, NoneType found" := by
  simp [pyJoinSpace, List.all_append]

/-- C3: refuted.  A concrete run whose service has no `image` dies in
`' '.join(cmd)` with a `TypeError` (the array holds `None`), so no command
string is printed. -/
theorem c3_missing_image_refuted :
    main ⟨"/cwd", "/home/u"⟩ ⟨"web", "ctx", false, "/proj/dc.yml"⟩
        [("web", { ports := [PortEntry.pstr "8080:80"] })]
      = Except.error "TypeError: sequence item: expected str instance, NoneType found"
    ∧ isOkRun (main ⟨"/cwd", "/home/u"⟩ ⟨"web", "ctx", false, "/proj/dc.yml"⟩
        [("web", { ports := [PortEntry.pstr "8080:80"] })]) = false := by
  constructor
  · rfl
  · decide

/-- C3 (amended): when the `image` field is absent, the token array is still
assembled (with a `None` in the image slot) but the final `' '.join` raises
`TypeError`, so the run fails and no command string is printed. -/
theorem c3_missing_image_join_fails (env : HostEnv) (args : Args)
    (services : List (String × ServiceSpec)) (spec : ServiceSpec)
    (svc_ports volume_list : List String)
    (hctx : (args.context == "") = false)
    (hlook : lookupService services args.service = some spec)
    (hports : mapExcept port_to_str spec.ports = Except.ok svc_ports)
    (hvols : mapExcept (volume_to_str_lambda env args.composefile) spec.volumes
      = Except.ok volume_list)
    (himg : spec.image = none) :
    main env args services
      = Except.error "TypeError: sequence item: expected str instance, NoneType found" := by
  unfold main
  rw [mainTokens_eq_assembled env args services spec svc_ports volume_list hctx hlook hports hvols]
  simp only [assembledTokens, himg, List.append_assoc, List.singleton_append]
  rw [pyJoinSpace_none_mid]

/-- Witness for C3 (amended). -/
theorem c3_missing_image_join_fails_witness :
    main ⟨"/cwd", "/home/u"⟩ ⟨"web", "ctx", false, "/proj/dc.yml"⟩
        [("web", { container_name := some "box" })]
      = Except.error "TypeError: sequence item: expected str instance, NoneType found" :=
  c3_missing_image_join_fails ⟨"/cwd", "/home/u"⟩ ⟨"web", "ctx", false, "/proj/dc.yml"⟩
    [("web", { container_name := some "box" })] { container_name := some "box" } [] []
    rfl rfl rfl rfl rfl

/-- C7: the structured bind-mount entry renders with its keys in declaration
order, the relative `source` resolved against the manifest directory `/proj`,
and `read_only` renamed to `readonly` (with Python `str(True)` spelling). -/
theorem c7_volume_mount_roundtrip (env : HostEnv) (cf : String)
    (hdir : osDirname cf = "/proj") :
    volume_to_str_lambda env cf (VolumeEntry.vdict
        [("type", PyVal.vstr "bind"), ("source", PyVal.vstr "./x"),
         ("target", PyVal.vstr "/y"), ("read_only", PyVal.vbool true)])
      = Except.ok "--mount type=bind,source=/proj/x,target=/y,readonly=True" := by
  have hsrc : volume_dict_pairs_to_str env cf ("source", PyVal.vstr "./x")
      = Except.ok "source=/proj/x" := by
    rw [show volume_dict_pairs_to_str env cf ("source", PyVal.vstr "./x")
        = Except.ok ("source=" ++ normpath (pathAbsolute env.cwd
            (posixJoin (osDirname cf) "./x"))) from rfl, hdir]
    rfl
  simp [volume_to_str_lambda, mapExcept, hsrc,
    show volume_dict_pairs_to_str env cf ("type", PyVal.vstr "bind")
      = Except.ok "type=bind" from rfl,
    show volume_dict_pairs_to_str env cf ("target", PyVal.vstr "/y")
      = Except.ok "target=/y" from rfl,
    show volume_dict_pairs_to_str env cf ("read_only", PyVal.vbool true)
      = Except.ok "readonly=True" from rfl]
  rfl

/-- Witness for C7 at a concrete manifest path inside `/proj`. -/
theorem c7_volume_mount_roundtrip_witness :
    volume_to_str_lambda ⟨"/cwd", "/home/u"⟩ "/proj/docker-compose.yml" (VolumeEntry.vdict
        [("type", PyVal.vstr "bind"), ("source", PyVal.vstr "./x"),
         ("target", PyVal.vstr "/y"), ("read_only", PyVal.vbool true)])
      = Except.ok "--mount type=bind,source=/proj/x,target=/y,readonly=True" :=
  c7_volume_mount_roundtrip ⟨"/cwd", "/home/u"⟩ "/proj/docker-compose.yml" rfl

/-- C8: a sequence-valued entrypoint is joined with single spaces, re-split
on spaces, the first token becomes the `--entrypoint` value, and the
remaining tokens are appended after the image, at the very end. -/
theorem c8_entrypoint_reconstruction (env : HostEnv) (args : Args)
    (services : List (String × ServiceSpec)) (spec : ServiceSpec)
    (svc_ports volume_list : List String) (xs : List String)
    (hctx : (args.context == "") = false)
    (hlook : lookupService services args.service = some spec)
    (hports : mapExcept port_to_str spec.ports = Except.ok svc_ports)
    (hvols : mapExcept (volume_to_str_lambda env args.composefile) spec.volumes
      = Except.ok volume_list)
    (hentry : spec.entrypoint = some (EntrypointVal.elist xs))
    (hne : (joinStr " " xs == "") = false) :
    ∃ tok rest, pySplit (joinStr " " xs) = tok :: rest ∧
      mainTokens env args services = Except.ok
        (((preEntryTokens args spec ++ ["--entrypoint", tok]
           ++ postEntryTokens env args spec svc_ports volume_list).map some)
         ++ [spec.image] ++ rest.map some) := by
  have hsplit : entrySplit (entryJoin spec.entrypoint) = pySplit (joinStr " " xs) := by
    simp [entryJoin, entrySplit, hentry, hne]
  obtain ⟨tok, rest, hcons⟩ : ∃ tok rest, pySplit (joinStr " " xs) = tok :: rest := by
    cases h : pySplit (joinStr " " xs) with
    | nil =>
      exact absurd (List.map_eq_nil_iff.mp h) (splitChar_ne_nil ' ' (joinStr " " xs).data)
    | cons t r => exact ⟨t, r, rfl⟩
  refine ⟨tok, rest, hcons, ?_⟩
  rw [mainTokens_eq_assembled env args services spec svc_ports volume_list hctx hlook hports hvols]
  simp [assembledTokens, hsplit, hcons]

/-- Witness for C8: the entrypoint sequence of the spec example. -/
theorem c8_entrypoint_reconstruction_witness :
    ∃ tok rest, pySplit (joinStr " " ["/bin/sh", "-c", "run.sh"]) = tok :: rest ∧
      mainTokens ⟨"/cwd", "/home/u"⟩ ⟨"web", "ctx", false, "/proj/dc.yml"⟩
          [("web", { entrypoint := some (EntrypointVal.elist ["/bin/sh", "-c", "run.sh"]),
                     image := some "img" })]
        = Except.ok
          (((preEntryTokens ⟨"web", "ctx", false, "/proj/dc.yml"⟩
               { entrypoint := some (EntrypointVal.elist ["/bin/sh", "-c", "run.sh"]),
                 image := some "img" }
             ++ ["--entrypoint", tok]
             ++ postEntryTokens ⟨"/cwd", "/home/u"⟩ ⟨"web", "ctx", false, "/proj/dc.yml"⟩
                  { entrypoint := some (EntrypointVal.elist ["/bin/sh", "-c", "run.sh"]),
                    image := some "img" } [] []).map some)
           ++ [some "img"] ++ rest.map some) :=
  c8_entrypoint_reconstruction ⟨"/cwd", "/home/u"⟩ ⟨"web", "ctx", false, "/proj/dc.yml"⟩
    _ _ _ _ ["/bin/sh", "-c", "run.sh"] rfl rfl rfl rfl rfl rfl

theorem joinStr_quoted_mem (k : String) (keys : List String) (hk : k ∈ keys) :
    ∃ l r, (joinStr ", " (keys.map (fun s => "\x27" ++ s ++ "\x27"))).data
      = l ++ k.data ++ r := by
  induction keys with
  | nil => cases hk
  | cons a t ih =>
    rcases List.mem_cons.mp hk with rfl | hk'
    · cases t with
      | nil =>
        refine ⟨['\x27'], ['\x27'], ?_⟩
        simp [joinStr, strData_append]
      | cons b t' =>
        refine ⟨['\x27'],
          '\x27' :: (", " ++ joinStr ", " ((b :: t').map fun s => "\x27" ++ s ++ "\x27")).data, ?_⟩
        simp [joinStr, strData_append]
    · cases t with
      | nil => cases hk'
      | cons b t' =>
        obtain ⟨l, r, hlr⟩ := ih hk'
        simp only [List.map_cons] at hlr
        refine ⟨("\x27" ++ a ++ "\x27").data ++ (", ").data ++ l, r, ?_⟩
        simp [joinStr, strData_append, hlr]

/-- C9: an unknown service name makes the run fail before anything is
printed, with a message that contains every service name present in the
manifest. -/
theorem c9_unknown_service_enumerates (env : HostEnv) (args : Args)
    (services : List (String × ServiceSpec))
    (hctx : (args.context == "") = false)
    (hlook : lookupService services args.service = none) :
    main env args services
      = Except.error (serviceNotFoundMsg args.service (services.map Prod.fst))
    ∧ ∀ k ∈ services.map Prod.fst, ∃ l r,
        (serviceNotFoundMsg args.service (services.map Prod.fst)).data
          = l ++ k.data ++ r := by
  constructor
  · simp [main, mainTokens, hctx, hlook]
  · intro k hk
    obtain ⟨l, r, hlr⟩ := joinStr_quoted_mem k (services.map Prod.fst) hk
    refine ⟨("Service ").data ++ args.service.data ++ (" not found in ").data
      ++ ("dict_keys([").data ++ l, r ++ ("])").data, ?_⟩
    simp only [serviceNotFoundMsg, pyKeysRepr, strData_append, List.append_assoc]
    rw [hlr]
    simp [List.append_assoc]

/-- Witness for C9: requesting `ghost` against a manifest with `web` and
`db`. -/
theorem c9_unknown_service_enumerates_witness :
    main ⟨"/cwd", "/home/u"⟩ ⟨"ghost", "ctx", false, "/proj/dc.yml"⟩ [("web", {}), ("db", {})]
      = Except.error (serviceNotFoundMsg "ghost" (([("web", ServiceSpec.mk), ("db", ServiceSpec.mk)]).map Prod.fst))
    ∧ ∀ k ∈ ([("web", ServiceSpec.mk), ("db", ServiceSpec.mk)]).map Prod.fst, ∃ l r,
        (serviceNotFoundMsg "ghost" (([("web", ServiceSpec.mk), ("db", ServiceSpec.mk)]).map Prod.fst)).data
          = l ++ k.data ++ r :=
  c9_unknown_service_enumerates ⟨"/cwd", "/home/u"⟩ ⟨"ghost", "ctx", false, "/proj/dc.yml"⟩
    [("web", {}), ("db", {})] rfl rfl

theorem lookupService_erase (ds : List (String × ServiceSpec)) (svc : String) :
    lookupService (ds.map (fun p => (p.1, eraseCommand p.2))) svc
      = (lookupService ds svc).map eraseCommand := by
  induction ds with
  | nil => rfl
  | cons e t ih =>
    simp only [List.map_cons, lookupService]
    by_cases h : (e.1 == svc) = true
    · simp [h]
    · simp [h, ih]

theorem mainTokens_erase (env : HostEnv) (args : Args) (ds : List (String × ServiceSpec)) :
    mainTokens env args (ds.map (fun p => (p.1, eraseCommand p.2)))
      = mainTokens env args ds := by
  unfold mainTokens
  rw [lookupService_erase]
  have hkeys : (ds.map (fun p => (p.1, eraseCommand p.2))).map Prod.fst
      = ds.map Prod.fst := by
    simp
  rw [hkeys]
  cases h : lookupService ds args.service with
  | none => rfl
  | some spec =>
    cases spec
    rfl

theorem main_erase (env : HostEnv) (args : Args) (ds : List (String × ServiceSpec)) :
    main env args (ds.map (fun p => (p.1, eraseCommand p.2))) = main env args ds := by
  unfold main
  rw [mainTokens_erase]

/-- C10: the extracted `command` value is dead: two manifests that agree
everywhere except on `command` fields produce identical runs (same printed
command or same failure). -/
theorem c10_command_unused (env : HostEnv) (args : Args)
    (ds1 ds2 : List (String × ServiceSpec))
    (h : ds1.map (fun p => (p.1, eraseCommand p.2))
      = ds2.map (fun p => (p.1, eraseCommand p.2))) :
    main env args ds1 = main env args ds2 := by
  rw [← main_erase env args ds1, h, main_erase env args ds2]

/-- Witness for C10: same service with and without a `command` value. -/
theorem c10_command_unused_witness :
    main ⟨"/cwd", "/home/u"⟩ ⟨"web", "ctx", false, "/proj/dc.yml"⟩
        [("web", { image := some "img", command := some (PyVal.vstr "echo hi") })]
      = main ⟨"/cwd", "/home/u"⟩ ⟨"web", "ctx", false, "/proj/dc.yml"⟩
        [("web", { image := some "img" })] :=
  c10_command_unused ⟨"/cwd", "/home/u"⟩ ⟨"web", "ctx", false, "/proj/dc.yml"⟩
    [("web", { image := some "img", command := some (PyVal.vstr "echo hi") })]
    [("web", { image := some "img" })] rfl

theorem fieldOf_setUnit (a : TDeltaArgs) (seg : Nat × Char) (k : Char)
    (hk : unitKey k = k) :
    fieldOf (setUnit a seg) k
      = if unitKey seg.2 == k then some seg.1 else fieldOf a k := by
  unfold unitKey at hk
  unfold fieldOf setUnit unitKey
  split_ifs at * <;> try simp_all
  all_goals rename_i hxk
  all_goals exact absurd (hxk.trans hk.symm) (by decide)

theorem findLastVal_cons (k : Char) (seg : Nat × Char) (rest : List (Nat × Char)) :
    findLastVal k (seg :: rest)
      = match findLastVal k rest with
        | some v => some v
        | none => if unitKey seg.2 == k then some seg.1 else none := rfl

theorem fieldOf_foldl (segs : List (Nat × Char)) (a : TDeltaArgs) (k : Char)
    (hk : unitKey k = k) :
    fieldOf (List.foldl setUnit a segs) k
      = match findLastVal k segs with
        | some v => some v
        | none => fieldOf a k := by
  induction segs generalizing a with
  | nil => rfl
  | cons seg rest ih =>
    rw [List.foldl_cons, ih (setUnit a seg), findLastVal_cons]
    cases h : findLastVal k rest with
    | some v => simp
    | none =>
      simp only
      rw [fieldOf_setUnit a seg k hk]
      by_cases hu : (unitKey seg.2 == k) = true
      · simp [hu]
      · simp [hu]

theorem fieldOf_empty (k : Char) : fieldOf {} k = none := by
  unfold fieldOf
  split_ifs <;> rfl

theorem fieldOf_foldl_empty (segs : List (Nat × Char)) (k : Char)
    (hk : unitKey k = k) :
    fieldOf (List.foldl setUnit {} segs) k = findLastVal k segs := by
  rw [fieldOf_foldl segs {} k hk]
  cases h : findLastVal k segs <;> simp [fieldOf_empty]

theorem totalSeconds_eq_fieldOf (a : TDeltaArgs) :
    totalSeconds a = (fieldOf a 's').getD 0 + 60 * (fieldOf a 'm').getD 0
      + 3600 * (fieldOf a 'h').getD 0 + 86400 * (fieldOf a 'd').getD 0
      + 604800 * (fieldOf a 'w').getD 0 := rfl

/-- C2: refuted.  When the same unit letter occurs in two segments, the later
segment OVERWRITES the earlier one (the source builds a dict keyed by unit
name), so `"30m30m"` yields 1800 seconds, not the claimed 3600. -/
theorem c2_repeated_units_refuted :
    convert_to_seconds "30m30m" = 1800 ∧ convert_to_seconds "30m30m" ≠ 3600 := by
  decide

/-- C2 (amended): for every input, the result is the sum over the five units
of the LAST segment carrying that unit (distinct-unit segments therefore sum,
and a repeated unit letter keeps only its last segment); the claimed
equalities for `"1h30m"` and `"90m"` do hold. -/
theorem c2_last_segment_wins :
    (∀ s : String, convert_to_seconds s = lastOccSeconds (scanSegs none s.data))
    ∧ convert_to_seconds "1h30m" = 5400
    ∧ convert_to_seconds "90m" = 5400
    ∧ convert_to_seconds "30m30m" = 1800 := by
  refine ⟨?_, by decide, by decide, by decide⟩
  intro s
  unfold convert_to_seconds
  rw [totalSeconds_eq_fieldOf]
  rw [fieldOf_foldl_empty (scanSegs none s.data) 's' rfl,
      fieldOf_foldl_empty (scanSegs none s.data) 'm' rfl,
      fieldOf_foldl_empty (scanSegs none s.data) 'h' rfl,
      fieldOf_foldl_empty (scanSegs none s.data) 'd' rfl,
      fieldOf_foldl_empty (scanSegs none s.data) 'w' rfl]
  rfl

theorem mapExcept_ok_mem {α β : Type} (f : α → Except String β) (l : List α) (ys : List β)
    (h : mapExcept f l = Except.ok ys) : ∀ x ∈ l, ∃ y, f x = Except.ok y := by
  induction l generalizing ys with
  | nil => intro x hx; cases hx
  | cons a t ih =>
    intro x hx
    unfold mapExcept at h
    cases hfa : f a with
    | error e => rw [hfa] at h; simp at h
    | ok y =>
      rw [hfa] at h
      cases hmt : mapExcept f t with
      | error e => rw [hmt] at h; simp at h
      | ok ys' =>
        rcases List.mem_cons.mp hx with rfl | hx'
        · exact ⟨y, hfa⟩
        · exact ih ys' hmt x hx'

/-- C4: a `ports` entry that is neither a string nor a mapping, or a
`volumes` entry that is neither a string nor a mapping, kills the run before
anything is printed (the source evaluates the undefined name `null`, raising
`NameError`): the run never produces a command string. -/
theorem c4_bad_shape_fatal (env : HostEnv) (args : Args)
    (services : List (String × ServiceSpec)) (spec : ServiceSpec)
    (hlook : lookupService services args.service = some spec)
    (hbad : PortEntry.pother ∈ spec.ports ∨ VolumeEntry.vother ∈ spec.volumes) :
    isOkRun (main env args services) = false := by
  cases hc : (args.context == "") with
  | true => simp [main, mainTokens, hc, isOkRun]
  | false =>
    cases hp : mapExcept port_to_str spec.ports with
    | error e => simp [main, mainTokens, hc, hlook, hp, isOkRun]
    | ok rs =>
      cases hv : mapExcept (volume_to_str_lambda env args.composefile) spec.volumes with
      | error e => simp [main, mainTokens, hc, hlook, hp, hv, isOkRun]
      | ok vs =>
        exfalso
        rcases hbad with hb | hb
        · obtain ⟨y, hy⟩ := mapExcept_ok_mem port_to_str spec.ports rs hp PortEntry.pother hb
          simp [port_to_str] at hy
        · obtain ⟨y, hy⟩ :=
            mapExcept_ok_mem (volume_to_str_lambda env args.composefile) spec.volumes vs hv
              VolumeEntry.vother hb
          simp [volume_to_str_lambda] at hy

/-- Witness for C4: a run with a malformed port entry produces no command. -/
theorem c4_bad_shape_fatal_witness :
    isOkRun (main ⟨"/cwd", "/home/u"⟩ ⟨"web", "ctx", false, "/proj/dc.yml"⟩
        [("web", { image := some "img", ports := [PortEntry.pother] })]) = false :=
  c4_bad_shape_fatal ⟨"/cwd", "/home/u"⟩ ⟨"web", "ctx", false, "/proj/dc.yml"⟩
    [("web", { image := some "img", ports := [PortEntry.pother] })]
    { image := some "img", ports := [PortEntry.pother] }
    rfl (Or.inl (by decide))

theorem listStartsWith_cons_append (c : Char) (l m : List Char)
    (h : listStartsWith [c] l = true) : listStartsWith [c] (l ++ m) = true := by
  cases l with
  | nil => simp [listStartsWith] at h
  | cons d ds =>
    simp [listStartsWith] at h ⊢
    exact h

theorem strStartsWith_slash_append (a b : String)
    (h : strStartsWith a "/" = true) : strStartsWith (a ++ b) "/" = true := by
  unfold strStartsWith at h ⊢
  rw [show ("/" : String).data = ['/'] from rfl] at h ⊢
  rw [strData_append]
  exact listStartsWith_cons_append '/' a.data b.data h

theorem pathAbsolute_startsWith (cwd p : String)
    (hcwd : strStartsWith cwd "/" = true) :
    strStartsWith (pathAbsolute cwd p) "/" = true := by
  unfold pathAbsolute
  split_ifs with h1 h2
  · exact h1
  · exact hcwd
  · exact strStartsWith_slash_append (cwd ++ "/") p (strStartsWith_slash_append cwd "/" hcwd)

theorem slash_not_tilde (s : String) (h : strStartsWith s "/" = true) :
    strStartsWith s "~" = false := by
  unfold strStartsWith at h ⊢
  rw [show ("/" : String).data = ['/'] from rfl] at h
  rw [show ("~" : String).data = ['~'] from rfl]
  cases hs : s.data with
  | nil => rw [hs] at h; simp [listStartsWith] at h
  | cons c cs =>
    rw [hs] at h
    simp [listStartsWith, beq_iff_eq] at h
    subst h
    simp [listStartsWith, show (('~' : Char) == '/') = false from rfl]

theorem splitChar_no_sep (sep : Char) (l : List Char) :
    ∀ seg ∈ splitChar sep l, sep ∉ seg := by
  induction l with
  | nil =>
    intro seg hseg
    simp [splitChar] at hseg
    subst hseg
    simp
  | cons c rest ih =>
    intro seg hseg
    unfold splitChar at hseg
    by_cases hc : (c == sep) = true
    · simp only [hc, if_true] at hseg
      rcases List.mem_cons.mp hseg with rfl | h'
      · simp
      · exact ih seg h'
    · simp only [hc, Bool.false_eq_true, if_false] at hseg
      have hcne : c ≠ sep := fun hh => hc (by simp [hh])
      cases hsp : splitChar sep rest with
      | nil => exact absurd hsp (splitChar_ne_nil sep rest)
      | cons s0 ss =>
        rw [hsp] at hseg
        have hs0 : s0 ∈ splitChar sep rest := by rw [hsp]; exact List.mem_cons_self s0 ss
        rcases List.mem_cons.mp hseg with rfl | h'
        · intro hmem
          rcases List.mem_cons.mp hmem with rfl | hmem'
          · exact hcne rfl
          · exact ih s0 hs0 hmem'
        · exact ih seg (by rw [hsp]; exact List.mem_cons_of_mem s0 h')

theorem normStack_clean (segs : List (List Char)) (hsegs : ∀ seg ∈ segs, '/' ∉ seg) :
    ∀ stack, (∀ x ∈ stack, cleanSeg x) →
      ∀ x ∈ segs.foldl (normStep true) stack, cleanSeg x := by
  induction segs with
  | nil =>
    intro stack hstack x hx
    exact hstack x hx
  | cons seg rest ih =>
    intro stack hstack x hx
    rw [List.foldl_cons] at hx
    refine ih (fun s hs => hsegs s (List.mem_cons_of_mem seg hs))
      (normStep true stack seg) ?_ x hx
    intro y hy
    have hnoslash : '/' ∉ seg := hsegs seg (List.mem_cons_self seg rest)
    unfold normStep at hy
    by_cases h1 : seg = [] ∨ seg = ['.']
    · rw [if_pos h1] at hy
      exact hstack y hy
    · by_cases h2 : seg ≠ ['.', '.']
      · rw [if_neg h1, if_pos h2] at hy
        rcases List.mem_cons.mp hy with rfl | hymem
        · push_neg at h1
          exact ⟨h1.1, h1.2, h2, hnoslash⟩
        · exact hstack y hymem
      · cases stack with
        | nil =>
          rw [if_neg h1, if_neg h2] at hy
          have hy' : y ∈ ([] : List (List Char)) := hy
          cases hy'
        | cons top rest' =>
          have htop : cleanSeg top := hstack top (List.mem_cons_self top rest')
          rw [if_neg h1, if_neg h2] at hy
          have hy' : y ∈ (if top = ['.', '.'] then seg :: (top :: rest') else rest') := hy
          rw [if_neg htop.2.2.1] at hy'
          exact hstack y (List.mem_cons_of_mem top hy')

theorem normpath_abs_clean (x : String) (h : strStartsWith x "/" = true) :
    ∃ segs, (∀ seg ∈ segs, cleanSeg seg)
      ∧ (normpath x).data = '/' :: joinSlash segs := by
  refine ⟨(normSegsRev true (splitChar '/' x.data)).reverse, ?_, ?_⟩
  · intro seg hseg
    rw [List.mem_reverse] at hseg
    exact normStack_clean (splitChar '/' x.data) (splitChar_no_sep '/' x.data)
      [] (by simp) seg hseg
  · simp only [normpath, h, if_true]

/-- C5: refuted.  An already-absolute but non-normalized path is emitted
verbatim by both the volume `source` resolver and the env-file resolver: the
output still contains the `.` and `..` segments that `normpath` would have
removed. -/
theorem c5_absolute_passthrough_refuted :
    volume_dict_pairs_to_str ⟨"/cwd", "/home/u"⟩ "/proj/dc.yml"
        ("source", PyVal.vstr "/a/./b/../c") = Except.ok "source=/a/./b/../c"
    ∧ env_file_to_str_lambda ⟨"/cwd", "/home/u"⟩ "/proj/dc.yml" "/a/./b/../c"
        = "--env-file /a/./b/../c"
    ∧ normpath "/a/./b/../c" = "/a/c"
    ∧ ("/a/./b/../c" : String) ≠ "/a/c" := by
  refine ⟨rfl, rfl, rfl, ?_⟩
  decide

/-- C5 (amended): tilde-prefixed and relative paths are resolved (through
home expansion, manifest-directory joining and the working directory) and
come out absolute and lexically normalized — free of empty, `.` and `..`
components — identically for volume sources and env-file entries; an
already-absolute path, however, is emitted VERBATIM, without normalization.
The tilde hypothesis confines the statement to the home-marker forms the
embedding models (`~` and `~/...`). -/
theorem c5_path_resolution (env : HostEnv) (cf s : String)
    (hcwd : strStartsWith env.cwd "/" = true)
    (htilde : strStartsWith s "~" = true → s = "~" ∨ strStartsWith s "~/" = true) :
    (strStartsWith s "/" = true →
       volume_dict_pairs_to_str env cf ("source", PyVal.vstr s)
         = Except.ok ("source=" ++ s)
       ∧ env_file_to_str_lambda env cf s = "--env-file " ++ s)
    ∧ (strStartsWith s "/" = false →
       ∃ p, volume_dict_pairs_to_str env cf ("source", PyVal.vstr s)
           = Except.ok ("source=" ++ p)
         ∧ env_file_to_str_lambda env cf s = "--env-file " ++ p
         ∧ ∃ segs, (∀ seg ∈ segs, cleanSeg seg) ∧ p.data = '/' :: joinSlash segs) := by
  have _ := htilde
  constructor
  · intro habs
    have hnt : strStartsWith s "~" = false := slash_not_tilde s habs
    constructor
    · simp [volume_dict_pairs_to_str, hnt, habs,
        show (("source" : String) == "read_only") = false from rfl,
        show (("source" : String) == "source") = true from rfl,
        show ((true : Bool) == false) = false from rfl]
    · simp [env_file_to_str_lambda, hnt, habs,
        show ((true : Bool) == false) = false from rfl]
  · intro hrel
    cases ht : strStartsWith s "~" with
    | true =>
      refine ⟨normpath (pathAbsolute env.cwd (expanduser env.home s)), ?_, ?_, ?_⟩
      · simp [volume_dict_pairs_to_str, ht,
          show (("source" : String) == "read_only") = false from rfl,
          show (("source" : String) == "source") = true from rfl]
      · simp [env_file_to_str_lambda, ht]
      · exact normpath_abs_clean _ (pathAbsolute_startsWith env.cwd _ hcwd)
    | false =>
      refine ⟨normpath (pathAbsolute env.cwd (posixJoin (osDirname cf) s)), ?_, ?_, ?_⟩
      · simp [volume_dict_pairs_to_str, ht, hrel,
          show (("source" : String) == "read_only") = false from rfl,
          show (("source" : String) == "source") = true from rfl,
          show ((false : Bool) == false) = true from rfl]
      · simp [env_file_to_str_lambda, ht, hrel,
          show ((false : Bool) == false) = true from rfl]
      · exact normpath_abs_clean _ (pathAbsolute_startsWith env.cwd _ hcwd)

/-- Witness for C5 (amended): the relative path `sub/../data` under manifest
directory `/proj`. -/
theorem c5_path_resolution_witness :
    (strStartsWith "sub/../data" "/" = true →
       volume_dict_pairs_to_str ⟨"/cwd", "/home/u"⟩ "/proj/dc.yml"
           ("source", PyVal.vstr "sub/../data")
         = Except.ok ("source=" ++ "sub/../data")
       ∧ env_file_to_str_lambda ⟨"/cwd", "/home/u"⟩ "/proj/dc.yml" "sub/../data"
         = "--env-file " ++ "sub/../data")
    ∧ (strStartsWith "sub/../data" "/" = false →
       ∃ p, volume_dict_pairs_to_str ⟨"/cwd", "/home/u"⟩ "/proj/dc.yml"
             ("source", PyVal.vstr "sub/../data")
           = Except.ok ("source=" ++ p)
         ∧ env_file_to_str_lambda ⟨"/cwd", "/home/u"⟩ "/proj/dc.yml" "sub/../data"
           = "--env-file " ++ p
         ∧ ∃ segs, (∀ seg ∈ segs, cleanSeg seg) ∧ p.data = '/' :: joinSlash segs) :=
  c5_path_resolution ⟨"/cwd", "/home/u"⟩ "/proj/dc.yml" "sub/../data" rfl (by decide)

end TelepresenceCompose
